import Mathlib

/-!
# Order workflow of Microservices-gopher

A shallow embedding of `order-service`, `payment-service` and `notification-service`, and
proofs about the order workflow. The user service is seen through the replies it gives to
the order service's HTTP client.

Conventions of the embedding

* Go `int` is `Int` (no arithmetic is performed on the values, only comparisons).
* A Go `(T, error)` result keeps both components; the error is an `Option String` holding the
  text of `err.Error()`, `none` standing for a `nil` error.
* Every interaction with the outside world (HTTP client calls, `db.Exec`, `smtp.SendMail`,
  the Stripe client) is answered by an environment record, and is recorded in a trace of calls.
* `log.Printf` lines are collected in a list of their own, without the time stamp.
* JSON bodies are represented by the decoded Go value, or by the decoder's error text.
-/

/-- Result of `json.NewDecoder(body).Decode(&v)`: the decoded value, or the decoder's error. -/
inductive Decoded (α : Type) where
  | ok (value : α)
  | malformed (err : String)
deriving DecidableEq, Repr

/-- What an `http.Client` call gives back: an error of the client (connection refused,
timeout, ...; Go wraps its cause in a `*url.Error`), or a response with a status code and a
body, the body given by what the JSON decoder makes of it. -/
inductive HttpReply (α : Type) where
  | transportError (cause : String)
  | response (StatusCode : Int) (Body : Decoded α)
deriving DecidableEq, Repr

/-- Text of a `*url.Error`, the error type of `http.Client` methods:
`fmt.Sprintf("%s %q: %s", e.Op, e.URL, e.Err)`. The URLs of this program need no escaping. -/
def urlErrorText (op url cause : String) : String :=
  op ++ " \"" ++ url ++ "\": " ++ cause

namespace OrderService

/-- Go struct `Order` of order-service/main.go. -/
structure Order where
  ID : Int
  UserID : Int
  Amount : Int
  Description : String
  PaymentStatus : String
deriving DecidableEq, Repr

/-- Go struct `PaymentResponse` of order-service/main.go. -/
structure PaymentResponse where
  OrderID : Int
  Amount : Int
  Status : String
  TransactionID : String
  ErrorMessage : String
deriving DecidableEq, Repr

/-- Go struct `User` of order-service/main.go. -/
structure User where
  ID : Int
  Name : String
  Email : String
deriving DecidableEq, Repr

/-- The anonymous payload struct marshalled by `processPayment`. -/
structure PaymentPayload where
  OrderID : Int
  Amount : Int
  Description : String
deriving DecidableEq, Repr

/-- The anonymous payload struct marshalled by `sendNotification`. -/
structure NotificationPayload where
  OrderID : Int
  PaymentStatus : String
  Amount : Int
  UserEmail : String
deriving DecidableEq, Repr

/-- A row of table `orders` (schema of `initializeDatabase`). -/
structure OrderRow where
  id : Int
  user_id : Int
  amount : Int
  description : String
  payment_status : String
deriving DecidableEq, Repr

/-- The order store: the rows of table `orders`, and the largest rowid handed out so far
(the `sqlite_sequence` entry kept for an `AUTOINCREMENT` key). -/
structure DB where
  rows : List OrderRow
  seq : Nat
deriving DecidableEq, Repr

/-- The rowid an `INTEGER PRIMARY KEY AUTOINCREMENT` column gets on the next insert: one more
than the largest rowid ever used. -/
def DB.nextId (db : DB) : Int :=
  max (db.seq : Int) (db.rows.foldl (fun m r => max m r.id) 0) + 1

/-- Effect of `INSERT INTO orders (user_id, amount, description) VALUES (?, ?, ?)`:
`id` is assigned by the store, `payment_status` takes its column default `'pending'`. -/
def DB.insert (db : DB) (user_id amount : Int) (description : String) : DB :=
  { rows := db.rows ++ [⟨db.nextId, user_id, amount, description, "pending"⟩],
    seq := db.nextId.toNat }

/-- Effect of `UPDATE orders SET payment_status = ? WHERE id = ?`. -/
def DB.update (db : DB) (status : String) (orderID : Int) : DB :=
  ⟨db.rows.map (fun r => if r.id = orderID then { r with payment_status := status } else r),
    db.seq⟩

/-- The stored payment status of the order with the given id, if there is such a row. -/
def DB.statusOf (db : DB) (orderID : Int) : Option String :=
  (db.rows.find? (fun r => decide (r.id = orderID))).map (fun r => r.payment_status)

/-- Calls the order service makes to its collaborators and to its store. -/
inductive Call where
  | httpGet (url : String)
  | dbInsert (user_id amount : Int) (description : String)
  | dbLastInsertId
  | httpPostPayment (payload : PaymentPayload)
  | dbUpdate (status : String) (orderID : Int)
  | httpPostNotification (payload : NotificationPayload)
deriving DecidableEq, Repr

/-- Answers of the outside world to the calls of the order service. -/
structure Env where
  /-- reply of the user service to `client.Get(url)` -/
  httpGet : String → HttpReply User
  /-- error of `db.Exec("INSERT ...")`, if any -/
  execInsert : Int → Int → String → Option String
  /-- error of `result.LastInsertId()`, if any -/
  lastInsertId : Option String
  /-- reply of the payment service to `client.Post(".../api/payments", payload)` -/
  httpPostPayment : PaymentPayload → HttpReply PaymentResponse
  /-- error of `db.Exec("UPDATE ...")`, if any -/
  execUpdate : String → Int → Option String
  /-- reply of the notification service; its body is never read -/
  httpPostNotification : NotificationPayload → HttpReply Unit

/-- An incoming HTTP request: its method, and what the JSON decoder makes of its body. -/
structure Request where
  Method : String
  Body : Decoded Order
deriving DecidableEq, Repr

/-- What the handler writes to the `http.ResponseWriter`: the text given to `http.Error`, or
the JSON object with keys `order`, `payment` and `paymentError` (a key that the handler does
not put in the map is `none`). -/
inductive ResponseBody where
  | error (text : String)
  | result (order : Order) (payment : Option PaymentResponse) (paymentError : Option String)
deriving DecidableEq, Repr

/-- Everything observable of one run of `orderHandler`. -/
structure Outcome where
  StatusCode : Int
  body : ResponseBody
  db : DB
  calls : List Call
  logs : List String
deriving DecidableEq, Repr

/-- Result of `getUser`: the Go pair `(User, error)` and what the call did. -/
structure GetUserResult where
  user : User
  err : Option String
  calls : List Call
  logs : List String
deriving DecidableEq, Repr

def userURL (userID : Int) : String :=
  "http://user-service:3001/api/users/" ++ toString userID

/-- Go: `%+v` of a `User`. -/
def User.format (u : User) : String :=
  "\x7bID:" ++ toString u.ID ++ " Name:" ++ u.Name ++ " Email:" ++ u.Email ++ "\x7d"

/-- Go: `func getUser(userID int) (User, error)`. -/
def getUser (env : Env) (userID : Int) : GetUserResult :=
  let url := userURL userID
  let log0 := "Requesting user at: " ++ url
  match env.httpGet url with
  | .transportError cause =>
    let err := urlErrorText "Get" url cause
    ⟨⟨0, "", ""⟩, some err, [.httpGet url],
      [log0, "Failed to connect to user service: " ++ err]⟩
  | .response code body =>
    if code ≠ 200 then
      ⟨⟨0, "", ""⟩, some ("user not found or error: " ++ toString code), [.httpGet url],
        [log0, "User service returned non-OK status: " ++ toString code]⟩
    else
      match body with
      | .malformed err =>
        ⟨⟨0, "", ""⟩, some err, [.httpGet url],
          [log0, "Failed to decode user response: " ++ err]⟩
      | .ok user =>
        ⟨user, none, [.httpGet url], [log0, "Successfully retrieved user: " ++ user.format]⟩

/-- Result of `processPayment`: the Go pair `(PaymentResponse, error)` and the calls made. -/
structure ProcessPaymentResult where
  paymentResp : PaymentResponse
  err : Option String
  calls : List Call
deriving DecidableEq, Repr

def paymentURL : String := "http://payment-service:3003/api/payments"

/-- Go: `func processPayment(order Order) (PaymentResponse, error)`. `json.Marshal` of the
payload struct (two ints and a string) cannot fail. -/
def processPayment (env : Env) (order : Order) : ProcessPaymentResult :=
  let payload : PaymentPayload := ⟨order.ID, order.Amount, order.Description⟩
  match env.httpPostPayment payload with
  | .transportError cause =>
    ⟨⟨0, 0, "", "", ""⟩, some (urlErrorText "Post" paymentURL cause), [.httpPostPayment payload]⟩
  | .response code body =>
    match body with
    | .malformed err => ⟨⟨0, 0, "", "", ""⟩, some err, [.httpPostPayment payload]⟩
    | .ok paymentResp =>
      if code ≠ 200 then
        ⟨paymentResp, some ("payment failed: " ++ paymentResp.ErrorMessage),
          [.httpPostPayment payload]⟩
      else
        ⟨paymentResp, none, [.httpPostPayment payload]⟩

/-- Result of `sendNotification`: the Go `error` and the calls made. -/
structure SendNotificationResult where
  err : Option String
  calls : List Call
deriving DecidableEq, Repr

def notificationURL : String := "http://notification-service:3004/api/notifications"

/-- Go: `func sendNotification(orderID int, paymentStatus string, amount int, userEmail string)
error`. -/
def sendNotification (env : Env) (orderID : Int) (paymentStatus : String) (amount : Int)
    (userEmail : String) : SendNotificationResult :=
  let payload : NotificationPayload := ⟨orderID, paymentStatus, amount, userEmail⟩
  match env.httpPostNotification payload with
  | .transportError cause =>
    ⟨some (urlErrorText "Post" notificationURL cause), [.httpPostNotification payload]⟩
  | .response code _ =>
    if code ≠ 200 then
      ⟨some ("notification failed with status: " ++ toString code),
        [.httpPostNotification payload]⟩
    else
      ⟨none, [.httpPostNotification payload]⟩

/-- Result of `updatePaymentStatus`: the store afterwards, and what the call did. -/
structure UpdateResult where
  db : DB
  calls : List Call
  logs : List String
deriving DecidableEq, Repr

/-- Go: `func updatePaymentStatus(db *sql.DB, orderID int, status string)`. A failing `UPDATE`
changes nothing and is only logged. -/
def updatePaymentStatus (env : Env) (db : DB) (orderID : Int) (status : String) :
    UpdateResult :=
  match env.execUpdate status orderID with
  | some err =>
    ⟨db, [.dbUpdate status orderID],
      ["Failed to update payment status for order " ++ toString orderID ++ ": " ++ err]⟩
  | none => ⟨db.update status orderID, [.dbUpdate status orderID], []⟩

/-- The goroutine started on the success path: one `sendNotification`, whose error is only
logged. It shares nothing with the response path; its call and its log line are recorded
after those of the request. -/
def notifyTask (env : Env) (order : Order) (status email : String) :
    List Call × List String :=
  let r := sendNotification env order.ID status order.Amount email
  match r.err with
  | some err =>
    (r.calls, ["Notification failed for order " ++ toString order.ID ++ ": " ++ err])
  | none => (r.calls, [])

/-- Go: the `http.HandlerFunc` returned by `orderHandler(db)`. -/
def orderHandler (env : Env) (db : DB) (r : Request) : Outcome :=
  if r.Method ≠ "POST" then
    ⟨405, .error "\x7b\"error\": \"Method not allowed\"\x7d", db, [], []⟩
  else
    match r.Body with
    | .malformed _ => ⟨400, .error "\x7b\"error\": \"Invalid request\"\x7d", db, [], []⟩
    | .ok order0 =>
      if order0.UserID ≤ 0 ∨ order0.Amount ≤ 0 then
        ⟨400, .error "\x7b\"error\": \"Invalid user_id or amount\"\x7d", db, [], []⟩
      else
        let u := getUser env order0.UserID
        match u.err with
        | some err =>
          ⟨400, .error ("\x7b\"error\": \"User validation failed: " ++ err ++ "\"\x7d"), db,
            u.calls, u.logs ++ ["User validation failed: " ++ err]⟩
        | none =>
          let insertCall := Call.dbInsert order0.UserID order0.Amount order0.Description
          match env.execInsert order0.UserID order0.Amount order0.Description with
          | some err =>
            ⟨500, .error "\x7b\"error\": \"Database error\"\x7d", db,
              u.calls ++ [insertCall], u.logs ++ ["Insert error: " ++ err]⟩
          | none =>
            let db1 := db.insert order0.UserID order0.Amount order0.Description
            match env.lastInsertId with
            | some err =>
              ⟨500, .error "\x7b\"error\": \"Failed to get order ID\"\x7d", db1,
                u.calls ++ [insertCall, .dbLastInsertId],
                u.logs ++ ["LastInsertId error: " ++ err]⟩
            | none =>
              let order := { order0 with ID := db.nextId }
              let p := processPayment env order
              match p.err with
              | some err =>
                let s := updatePaymentStatus env db1 order.ID "failed"
                ⟨200, .result order none (some err), s.db,
                  u.calls ++ [insertCall, .dbLastInsertId] ++ p.calls ++ s.calls,
                  u.logs ++ ["Payment failed for order " ++ toString order.ID ++ ": " ++ err]
                    ++ s.logs⟩
              | none =>
                let s := updatePaymentStatus env db1 order.ID p.paymentResp.Status
                let n := notifyTask env order p.paymentResp.Status u.user.Email
                ⟨200, .result order (some p.paymentResp) none, s.db,
                  u.calls ++ [insertCall, .dbLastInsertId] ++ p.calls ++ s.calls ++ n.1,
                  u.logs ++ s.logs ++ n.2⟩

end OrderService

namespace PaymentService

/-- Go struct `PaymentRequest` of payment-service/main.go. -/
structure PaymentRequest where
  OrderID : Int
  Amount : Int
  Description : String
deriving DecidableEq, Repr

/-- Go struct `PaymentResponse` of payment-service/main.go. -/
structure PaymentResponse where
  OrderID : Int
  Amount : Int
  Status : String
  TransactionID : String
  ErrorMessage : String
deriving DecidableEq, Repr

/-- Go interface `PaymentProcessor`: its one method `ProcessPayment`, returning the Go pair
`(PaymentResponse, error)`. -/
abbrev PaymentProcessor := PaymentRequest → PaymentResponse × Option String

/-- The `stripe.PaymentIntentParams` built by `StripeProcessor.ProcessPayment`. -/
structure PaymentIntentParams where
  Amount : Int
  Currency : String
  Description : String
  PaymentMethodTypes : List String
deriving DecidableEq, Repr

/-- Go: `func (sp *StripeProcessor) ProcessPayment(req PaymentRequest) (PaymentResponse, error)`.
`paymentintentNew` stands for the Stripe client call `paymentintent.New(params)`: it gives
the id of the new payment intent, or the text of Stripe's error. -/
def StripeProcessor.ProcessPayment (paymentintentNew : PaymentIntentParams → Except String String) :
    PaymentProcessor := fun req =>
  let params : PaymentIntentParams := ⟨req.Amount, "usd", req.Description, ["card"]⟩
  match paymentintentNew params with
  | .error err => (⟨req.OrderID, req.Amount, "failed", "", err⟩, some err)
  | .ok piID => (⟨req.OrderID, req.Amount, "success", piID, ""⟩, none)

/-- What `paymentHandler` writes: the text given to `http.Error`, or the encoded
`PaymentResponse`. -/
inductive ResponseBody where
  | error (text : String)
  | json (resp : PaymentResponse)
deriving DecidableEq, Repr

/-- Everything observable of one run of `paymentHandler`. -/
structure Response where
  StatusCode : Int
  body : ResponseBody
  logs : List String
deriving DecidableEq, Repr

/-- Go: the `http.HandlerFunc` returned by `paymentHandler(processor)`. The handler never calls
`WriteHeader` before encoding `resp`, so that response goes out with status 200 whether or not
the processor returned an error. Writing to the `ResponseWriter` is taken to succeed, so the
branch for an `Encode` error is not entered. -/
def paymentHandler (processor : PaymentProcessor) (method : String)
    (body : Decoded PaymentRequest) : Response :=
  if method ≠ "POST" then
    ⟨405, .error "\x7b\"error\": \"Method not allowed\"\x7d", []⟩
  else
    match body with
    | .malformed _ => ⟨400, .error "\x7b\"error\": \"Invalid request format\"\x7d", []⟩
    | .ok req =>
      if req.Amount ≤ 0 then
        ⟨400, .error "\x7b\"error\": \"Amount must be greater than 0\"\x7d", []⟩
      else
        let r := processor req
        match r.2 with
        | some err =>
          ⟨200, .json r.1,
            ["Payment processing error for order " ++ toString req.OrderID ++ ": " ++ err]⟩
        | none => ⟨200, .json r.1, []⟩

end PaymentService

namespace NotificationService

/-- Go struct `NotificationRequest` of notification-service/main.go. -/
structure NotificationRequest where
  OrderID : Int
  PaymentStatus : String
  Amount : Int
  UserEmail : String
deriving DecidableEq, Repr

/-- Go struct `NotificationResponse` of notification-service/main.go. -/
structure NotificationResponse where
  OrderID : Int
  Status : String
deriving DecidableEq, Repr

/-- The arguments of one `smtp.SendMail(addr, nil, from, to, msg)` call. -/
structure Mail where
  addr : String
  sender : String
  rcpt : List String
  msg : String
deriving DecidableEq, Repr

/-- Answers of the outside world to the notification service. -/
structure Env where
  /-- error of `smtp.SendMail`, if any -/
  sendMail : Mail → Option String
  /-- the text `fmt.Sprintf("%.2f", float64(n))` -/
  formatFloat2 : Int → String

/-- Go: `func sendEmail(to, subject, body string) error`, with the mails it hands to
`smtp.SendMail`. -/
def sendEmail (env : Env) (to_ subject body : String) : Option String × List Mail :=
  let host0 := "mailhog"
  let port0 := "1025"
  let sender := "from@example.com"
  let host := if host0 = "" ∨ port0 = "" then "localhost" else host0
  let port := if host0 = "" ∨ port0 = "" then "1025" else port0
  let msg := "To: " ++ to_ ++ "\r\n" ++ "Subject: " ++ subject ++ "\r\n" ++ "\r\n" ++ body ++ "\r\n"
  let addr := host ++ ":" ++ port
  let mail : Mail := ⟨addr, sender, [to_], msg⟩
  (env.sendMail mail, [mail])

/-- What the handler writes: the text given to `http.Error`, or the encoded
`NotificationResponse`. -/
inductive ResponseBody where
  | error (text : String)
  | json (resp : NotificationResponse)
deriving DecidableEq, Repr

/-- Everything observable of one run of the handler. -/
structure Response where
  StatusCode : Int
  body : ResponseBody
  mails : List Mail
  logs : List String
deriving DecidableEq, Repr

/-- Go: the handler registered for `/api/notifications` in `main`. -/
def notificationHandler (env : Env) (method : String) (body : Decoded NotificationRequest) :
    Response :=
  if method ≠ "POST" then
    ⟨405, .error "\x7b\"error\": \"Method not allowed\"\x7d", [], []⟩
  else
    match body with
    | .malformed _ => ⟨400, .error "\x7b\"error\": \"Invalid request\"\x7d", [], []⟩
    | .ok req =>
      let resp : NotificationResponse := ⟨req.OrderID, "sent"⟩
      if req.PaymentStatus = "success" then
        let subject := "Payment Confirmation for Order #" ++ toString req.OrderID
        let text := "Dear User,\n\nYour payment of $" ++ env.formatFloat2 req.Amount ++
          " for Order #" ++ toString req.OrderID ++
          " has been successfully processed.\n\nThank you!"
        let e := sendEmail env req.UserEmail subject text
        match e.1 with
        | some err =>
          ⟨200, .json { resp with Status := "email_failed" }, e.2,
            ["Failed to send email for order " ++ toString req.OrderID ++ ": " ++ err]⟩
        | none => ⟨200, .json resp, e.2, []⟩
      else
        ⟨200, .json resp, [], []⟩

end NotificationService

namespace Deployment

/-- What the order service's JSON decoder makes of a body written by `paymentHandler`: the
two `PaymentResponse` structs carry the same JSON keys, and the object written by
`http.Error` has none of them, so it decodes to the zero value. -/
def decodePaymentBody : PaymentService.ResponseBody → Decoded OrderService.PaymentResponse
  | .json p => .ok ⟨p.OrderID, p.Amount, p.Status, p.TransactionID, p.ErrorMessage⟩
  | .error _ => .ok ⟨0, 0, "", "", ""⟩

/-- The payment service of this repository as seen by the order service's HTTP client:
the payload is posted to `paymentHandler` and the response is read back. -/
def paymentServiceReply (processor : PaymentService.PaymentProcessor)
    (payload : OrderService.PaymentPayload) : HttpReply OrderService.PaymentResponse :=
  let r := PaymentService.paymentHandler processor "POST"
    (.ok ⟨payload.OrderID, payload.Amount, payload.Description⟩)
  .response r.StatusCode (decodePaymentBody r.body)

/-- An environment of the order service whose payment gateway is the payment service of this
repository, run with the given processor. -/
def withPaymentService (env : OrderService.Env) (processor : PaymentService.PaymentProcessor) :
    OrderService.Env :=
  { env with httpPostPayment := paymentServiceReply processor }

end Deployment

namespace Scenario

open OrderService

/-- The user of the spec's scenarios. -/
def user1 : User := ⟨1, "alice", "alice@example.com"⟩

/-- An environment in which user 1 exists, the store and the notifier work, and the payment
gateway answers with the given reply. -/
def env (payment : PaymentPayload → HttpReply PaymentResponse) : Env :=
  { httpGet := fun url =>
      if url = userURL 1 then .response 200 (.ok user1)
      else .response 404 (.ok ⟨0, "", ""⟩),
    execInsert := fun _ _ _ => none,
    lastInsertId := none,
    httpPostPayment := payment,
    execUpdate := fun _ _ => none,
    httpPostNotification := fun _ => .response 200 (.ok ()) }

/-- The empty order store. -/
def emptyDB : DB := ⟨[], 0⟩

/-- The request of the spec's scenarios: `userId 1, amount 5000, description "book"`. -/
def bookOrder : Order := ⟨0, 1, 5000, "book", ""⟩

def bookRequest : Request := ⟨"POST", .ok bookOrder⟩

/-- The payment gateway accepts every charge: status 200, outcome `success`, transaction
`tx_1`. -/
def chargeAccepted : Env :=
  env fun p => .response 200 (.ok ⟨p.OrderID, p.Amount, "success", "tx_1", ""⟩)

/-- The payment gateway refuses every charge with HTTP status 402 and a well-formed `failed`
outcome in the body. -/
def chargeRefused : Env :=
  env fun p => .response 402 (.ok ⟨p.OrderID, p.Amount, "failed", "", "card_declined"⟩)

/-- The payment gateway answers every charge with HTTP status 200 and an outcome whose status
is `pending`. -/
def chargePending : Env :=
  env fun p => .response 200 (.ok ⟨p.OrderID, p.Amount, "pending", "", ""⟩)

/-- The payment gateway is the payment service of this repository, and Stripe declines every
payment intent with the error `card_declined`. -/
def stripeDeclines : Env :=
  env (Deployment.paymentServiceReply
    (PaymentService.StripeProcessor.ProcessPayment fun _ => .error "card_declined"))

/-- An environment in which user 1 exists but the store refuses every `INSERT`. -/
def brokenStore : Env :=
  { env (fun _ => .transportError "down") with execInsert := fun _ _ _ => some "disk I/O error" }

end Scenario

/-! ## Observations on a trace of calls -/

namespace OrderService

/-- The status values of the `UPDATE` statements in a trace, in order. -/
def statusWrites : List Call → List String
  | [] => []
  | .dbUpdate status _ :: cs => status :: statusWrites cs
  | _ :: cs => statusWrites cs

/-- The payloads posted to the notification service in a trace, in order. -/
def notifications : List Call → List NotificationPayload
  | [] => []
  | .httpPostNotification payload :: cs => payload :: notifications cs
  | _ :: cs => notifications cs

/-- The payloads posted to the payment service in a trace, in order. -/
def charges : List Call → List PaymentPayload
  | [] => []
  | .httpPostPayment payload :: cs => payload :: charges cs
  | _ :: cs => charges cs

/-- The order as the handler holds it once the store has assigned its id. -/
def Order.withID (order : Order) (id : Int) : Order := { order with ID := id }

/-- The `order` object of a response body, when the body has one. -/
def ResponseBody.order? : ResponseBody → Option Order
  | .result order _ _ => some order
  | .error _ => none

/-- The `payment` section of a response body, when the body has one. -/
def ResponseBody.payment? : ResponseBody → Option PaymentResponse
  | .result _ payment _ => payment
  | .error _ => none

/-- The `paymentError` entry of a response body, when the body has one. -/
def ResponseBody.paymentError? : ResponseBody → Option String
  | .result _ _ paymentError => paymentError
  | .error _ => none

/-! ## Auxiliary facts -/

theorem nextId_pos (db : DB) : 0 < db.nextId := by
  unfold DB.nextId
  have h : (0 : Int) ≤ (db.seq : Int) := Int.ofNat_nonneg _
  have h2 : (db.seq : Int) ≤ max (db.seq : Int) (db.rows.foldl (fun m r => max m r.id) 0) :=
    le_max_left _ _
  omega

theorem getUser_calls (env : Env) (userID : Int) :
    (getUser env userID).calls = [.httpGet (userURL userID)] := by
  cases hr : env.httpGet (userURL userID) with
  | transportError cause => simp [getUser, hr]
  | response code body =>
    by_cases hc : code = 200
    · cases body <;> simp [getUser, hr, hc]
    · simp [getUser, hr, hc]

theorem getUser_resolved (env : Env) (userID : Int) (user : User)
    (h : env.httpGet (userURL userID) = .response 200 (.ok user)) :
    (getUser env userID).err = none ∧ (getUser env userID).user = user := by
  simp [getUser, h]

theorem getUser_failed (env : Env) (userID : Int)
    (h : ∀ user, env.httpGet (userURL userID) ≠ .response 200 (.ok user)) :
    ∃ err, (getUser env userID).err = some err := by
  cases hr : env.httpGet (userURL userID) with
  | transportError cause =>
    exact ⟨urlErrorText "Get" (userURL userID) cause, by simp [getUser, hr]⟩
  | response code body =>
    by_cases hc : code = 200
    · cases body with
      | malformed e => exact ⟨e, by simp [getUser, hr, hc]⟩
      | ok user => exact absurd (hc ▸ hr) (h user)
    · exact ⟨"user not found or error: " ++ toString code, by simp [getUser, hr, hc]⟩

theorem processPayment_calls (env : Env) (order : Order) :
    (processPayment env order).calls =
      [.httpPostPayment ⟨order.ID, order.Amount, order.Description⟩] := by
  cases hr : env.httpPostPayment ⟨order.ID, order.Amount, order.Description⟩ with
  | transportError cause => simp [processPayment, hr]
  | response code body =>
    cases body with
    | malformed e => simp [processPayment, hr]
    | ok p => by_cases hc : code = 200 <;> simp [processPayment, hr, hc]

theorem append_ne_empty (s t : String) (h : s ≠ "") : s ++ t ≠ "" := by
  intro h2
  apply h
  have h3 := congrArg String.data h2
  simp at h3
  exact String.ext (by simpa using h3.1)

theorem foldl_max_bound (rows : List OrderRow) (init : Int) :
    init ≤ rows.foldl (fun m r => max m r.id) init ∧
      ∀ r ∈ rows, r.id ≤ rows.foldl (fun m r => max m r.id) init := by
  induction rows generalizing init with
  | nil => simp
  | cons r rs ih =>
    obtain ⟨h1, h2⟩ := ih (max init r.id)
    refine ⟨le_trans (le_max_left _ _) h1, ?_⟩
    intro x hx
    rcases List.mem_cons.mp hx with rfl | hx
    · exact le_trans (le_max_right _ _) h1
    · exact h2 x hx

theorem id_lt_nextId (db : DB) (r : OrderRow) (hr : r ∈ db.rows) : r.id < db.nextId := by
  have h1 := (foldl_max_bound db.rows 0).2 r hr
  have h2 : db.rows.foldl (fun m r => max m r.id) 0 ≤
      max (db.seq : Int) (db.rows.foldl (fun m r => max m r.id) 0) := le_max_right _ _
  unfold DB.nextId
  omega

/-- The row just inserted is stored with status `pending`, and is the only row with the new
id. -/
theorem statusOf_insert (db : DB) (user_id amount : Int) (description : String) :
    (db.insert user_id amount description).statusOf db.nextId = some "pending" := by
  have hnone : db.rows.find? (fun r => decide (r.id = db.nextId)) = none := by
    rw [List.find?_eq_none]
    intro r hr
    have := id_lt_nextId db r hr
    simp
    omega
  simp [DB.statusOf, DB.insert, List.find?_append, hnone]

theorem find_map_update (rows : List OrderRow) (status : String) (orderID : Int)
    (h : ∃ r ∈ rows, r.id = orderID) :
    ((rows.map (fun r => if r.id = orderID then { r with payment_status := status } else r)).find?
      (fun r => decide (r.id = orderID))).map (fun r => r.payment_status) = some status := by
  induction rows with
  | nil => simp at h
  | cons r rs ih =>
    by_cases hr : r.id = orderID
    · simp [hr]
    · have h2 : ∃ x ∈ rs, x.id = orderID := by
        obtain ⟨x, hx, hxid⟩ := h
        rcases List.mem_cons.mp hx with rfl | hx
        · exact absurd hxid hr
        · exact ⟨x, hx, hxid⟩
      simpa [hr] using ih h2

/-- After a successful `UPDATE` of the order just inserted, its stored status is the value
written. -/
theorem statusOf_update_insert (db : DB) (user_id amount : Int) (description status : String) :
    ((db.insert user_id amount description).update status db.nextId).statusOf db.nextId =
      some status := by
  unfold DB.statusOf DB.update
  apply find_map_update
  exact ⟨⟨db.nextId, user_id, amount, description, "pending"⟩, by simp [DB.insert], rfl⟩

theorem updatePaymentStatus_calls (env : Env) (db : DB) (orderID : Int) (status : String) :
    (updatePaymentStatus env db orderID status).calls = [.dbUpdate status orderID] := by
  unfold updatePaymentStatus
  cases env.execUpdate status orderID <;> rfl

theorem updatePaymentStatus_db (env : Env) (db : DB) (orderID : Int) (status : String)
    (h : env.execUpdate status orderID = none) :
    (updatePaymentStatus env db orderID status).db = db.update status orderID := by
  simp [updatePaymentStatus, h]

theorem processPayment_of_ok (env : Env) (order : Order) (p : PaymentResponse)
    (h : env.httpPostPayment ⟨order.ID, order.Amount, order.Description⟩ = .response 200 (.ok p)) :
    (processPayment env order).err = none ∧ (processPayment env order).paymentResp = p := by
  simp [processPayment, h]

theorem processPayment_of_status (env : Env) (order : Order) (p : PaymentResponse) (code : Int)
    (h : env.httpPostPayment ⟨order.ID, order.Amount, order.Description⟩ = .response code (.ok p))
    (hc : code ≠ 200) :
    (processPayment env order).err = some ("payment failed: " ++ p.ErrorMessage) ∧
      (processPayment env order).paymentResp = p := by
  simp [processPayment, h, hc]

theorem processPayment_ok_inv (env : Env) (order : Order)
    (h : (processPayment env order).err = none) :
    env.httpPostPayment ⟨order.ID, order.Amount, order.Description⟩ =
      .response 200 (.ok (processPayment env order).paymentResp) := by
  cases hr : env.httpPostPayment ⟨order.ID, order.Amount, order.Description⟩ with
  | transportError cause => simp [processPayment, hr] at h
  | response code body =>
    cases body with
    | malformed e => simp [processPayment, hr] at h
    | ok p =>
      by_cases hc : code = 200
      · simp [processPayment, hr, hc]
      · simp [processPayment, hr, hc] at h

theorem processPayment_err_nonempty (env : Env) (order : Order) (err : String)
    (h : (processPayment env order).err = some err)
    (hdec : ∀ code, env.httpPostPayment ⟨order.ID, order.Amount, order.Description⟩ ≠
      .response code (.malformed "")) :
    err ≠ "" := by
  cases hr : env.httpPostPayment ⟨order.ID, order.Amount, order.Description⟩ with
  | transportError cause =>
    simp [processPayment, hr] at h
    rw [← h]
    unfold urlErrorText
    simp only [String.append_assoc]
    exact append_ne_empty _ _ (by decide)
  | response code body =>
    cases body with
    | malformed e =>
      simp [processPayment, hr] at h
      subst h
      intro he
      exact hdec code (by rw [hr, he])
    | ok p =>
      by_cases hc : code = 200
      · simp [processPayment, hr, hc] at h
      · simp [processPayment, hr, hc] at h
        rw [← h]
        exact append_ne_empty _ _ (by decide)

theorem notifyTask_calls (env : Env) (order : Order) (status email : String) :
    (notifyTask env order status email).1 =
      [.httpPostNotification ⟨order.ID, status, order.Amount, email⟩] := by
  cases hr : env.httpPostNotification ⟨order.ID, status, order.Amount, email⟩ with
  | transportError cause => simp [notifyTask, sendNotification, hr]
  | response code body =>
    by_cases hc : code = 200 <;> simp [notifyTask, sendNotification, hr, hc]

/-! ## The paths of `orderHandler` -/

theorem orderHandler_user_failed (env : Env) (db : DB) (order : Order)
    (hu : 0 < order.UserID) (ha : 0 < order.Amount)
    (hfail : ∀ user, env.httpGet (userURL order.UserID) ≠ .response 200 (.ok user)) :
    (orderHandler env db ⟨"POST", .ok order⟩).StatusCode = 400 ∧
    (orderHandler env db ⟨"POST", .ok order⟩).db = db ∧
    (orderHandler env db ⟨"POST", .ok order⟩).calls = [.httpGet (userURL order.UserID)] := by
  obtain ⟨err, herr⟩ := getUser_failed env order.UserID hfail
  have hv : ¬ (order.UserID ≤ 0 ∨ order.Amount ≤ 0) := by omega
  simp [orderHandler, hv, herr, getUser_calls]

theorem orderHandler_insert_failed (env : Env) (db : DB) (order : Order) (user : User)
    (hu : 0 < order.UserID) (ha : 0 < order.Amount)
    (hUser : env.httpGet (userURL order.UserID) = .response 200 (.ok user))
    (hfail : env.execInsert order.UserID order.Amount order.Description ≠ none ∨
      env.lastInsertId ≠ none) :
    (orderHandler env db ⟨"POST", .ok order⟩).StatusCode = 500 ∧
    ((orderHandler env db ⟨"POST", .ok order⟩).calls =
        [.httpGet (userURL order.UserID),
         .dbInsert order.UserID order.Amount order.Description] ∨
     (orderHandler env db ⟨"POST", .ok order⟩).calls =
        [.httpGet (userURL order.UserID),
         .dbInsert order.UserID order.Amount order.Description,
         .dbLastInsertId]) ∧
    ((orderHandler env db ⟨"POST", .ok order⟩).db = db ∨
     (orderHandler env db ⟨"POST", .ok order⟩).db =
        db.insert order.UserID order.Amount order.Description) := by
  have hv : ¬ (order.UserID ≤ 0 ∨ order.Amount ≤ 0) := by omega
  obtain ⟨hg1, hg2⟩ := getUser_resolved env order.UserID user hUser
  cases hIns : env.execInsert order.UserID order.Amount order.Description with
  | some e => simp [orderHandler, hv, hg1, hIns, getUser_calls]
  | none =>
    cases hId : env.lastInsertId with
    | some e => simp [orderHandler, hv, hg1, hIns, hId, getUser_calls]
    | none => simp [hIns, hId] at hfail

theorem orderHandler_charge_failed (env : Env) (db : DB) (order : Order) (user : User)
    (err : String) (hu : 0 < order.UserID) (ha : 0 < order.Amount)
    (hUser : env.httpGet (userURL order.UserID) = .response 200 (.ok user))
    (hIns : env.execInsert order.UserID order.Amount order.Description = none)
    (hId : env.lastInsertId = none)
    (hPay : (processPayment env (order.withID db.nextId)).err = some err) :
    (orderHandler env db ⟨"POST", .ok order⟩).StatusCode = 200 ∧
    (orderHandler env db ⟨"POST", .ok order⟩).body =
      .result (order.withID db.nextId) none (some err) ∧
    (orderHandler env db ⟨"POST", .ok order⟩).db =
      (updatePaymentStatus env (db.insert order.UserID order.Amount order.Description)
        db.nextId "failed").db ∧
    (orderHandler env db ⟨"POST", .ok order⟩).calls =
      [.httpGet (userURL order.UserID),
       .dbInsert order.UserID order.Amount order.Description,
       .dbLastInsertId,
       .httpPostPayment ⟨db.nextId, order.Amount, order.Description⟩,
       .dbUpdate "failed" db.nextId] := by
  have hv : ¬ (order.UserID ≤ 0 ∨ order.Amount ≤ 0) := by omega
  obtain ⟨hg1, hg2⟩ := getUser_resolved env order.UserID user hUser
  have hpc := processPayment_calls env (order.withID db.nextId)
  simp only [Order.withID] at hPay hpc
  simp [orderHandler, hv, hg1, hg2, hIns, hId, hPay, hpc, getUser_calls,
    updatePaymentStatus_calls, Order.withID]

theorem orderHandler_charge_ok (env : Env) (db : DB) (order : Order) (user : User)
    (hu : 0 < order.UserID) (ha : 0 < order.Amount)
    (hUser : env.httpGet (userURL order.UserID) = .response 200 (.ok user))
    (hIns : env.execInsert order.UserID order.Amount order.Description = none)
    (hId : env.lastInsertId = none)
    (hPay : (processPayment env (order.withID db.nextId)).err = none) :
    (orderHandler env db ⟨"POST", .ok order⟩).StatusCode = 200 ∧
    (orderHandler env db ⟨"POST", .ok order⟩).body =
      .result (order.withID db.nextId)
        (some (processPayment env (order.withID db.nextId)).paymentResp) none ∧
    (orderHandler env db ⟨"POST", .ok order⟩).db =
      (updatePaymentStatus env (db.insert order.UserID order.Amount order.Description)
        db.nextId (processPayment env (order.withID db.nextId)).paymentResp.Status).db ∧
    (orderHandler env db ⟨"POST", .ok order⟩).calls =
      [.httpGet (userURL order.UserID),
       .dbInsert order.UserID order.Amount order.Description,
       .dbLastInsertId,
       .httpPostPayment ⟨db.nextId, order.Amount, order.Description⟩,
       .dbUpdate (processPayment env (order.withID db.nextId)).paymentResp.Status db.nextId,
       .httpPostNotification
         ⟨db.nextId, (processPayment env (order.withID db.nextId)).paymentResp.Status,
           order.Amount, user.Email⟩] := by
  have hv : ¬ (order.UserID ≤ 0 ∨ order.Amount ≤ 0) := by omega
  obtain ⟨hg1, hg2⟩ := getUser_resolved env order.UserID user hUser
  have hpc := processPayment_calls env (order.withID db.nextId)
  have hn := notifyTask_calls env (order.withID db.nextId)
    (processPayment env (order.withID db.nextId)).paymentResp.Status user.Email
  simp only [Order.withID] at hPay hpc hn
  simp [orderHandler, hv, hg1, hg2, hIns, hId, hPay, hpc, hn, getUser_calls,
    updatePaymentStatus_calls, Order.withID]

/-- Every run of the handler issues no `UPDATE` at all, or one writing `failed`, or one
writing the status field of the payment service's 200 reply. -/
theorem orderHandler_statusWrites (env : Env) (db : DB) (r : Request) :
    statusWrites (orderHandler env db r).calls = [] ∨
    statusWrites (orderHandler env db r).calls = ["failed"] ∨
    ∃ order p, r.Body = .ok order ∧
      env.httpPostPayment ⟨db.nextId, order.Amount, order.Description⟩ = .response 200 (.ok p) ∧
      statusWrites (orderHandler env db r).calls = [p.Status] := by
  obtain ⟨method, body⟩ := r
  by_cases hm : method = "POST"
  swap
  · left; simp [orderHandler, hm, statusWrites]
  subst hm
  cases body with
  | malformed e => left; simp [orderHandler, statusWrites]
  | ok order =>
    by_cases hv : order.UserID ≤ 0 ∨ order.Amount ≤ 0
    · left; simp [orderHandler, hv, statusWrites]
    have hu : 0 < order.UserID := by omega
    have ha : 0 < order.Amount := by omega
    by_cases hUser : ∃ user, env.httpGet (userURL order.UserID) = .response 200 (.ok user)
    swap
    · left
      have h := orderHandler_user_failed env db order hu ha
        (fun user hx => hUser ⟨user, hx⟩)
      rw [h.2.2]; rfl
    obtain ⟨user, hUser⟩ := hUser
    by_cases hins : env.execInsert order.UserID order.Amount order.Description ≠ none ∨
        env.lastInsertId ≠ none
    · left
      rcases (orderHandler_insert_failed env db order user hu ha hUser hins).2.1 with h | h <;>
        (rw [h]; rfl)
    have hIns : env.execInsert order.UserID order.Amount order.Description = none := by
      by_contra hx; exact hins (Or.inl hx)
    have hId : env.lastInsertId = none := by
      by_contra hx; exact hins (Or.inr hx)
    cases hPay : (processPayment env (order.withID db.nextId)).err with
    | some err =>
      right; left
      rw [(orderHandler_charge_failed env db order user err hu ha hUser hIns hId hPay).2.2.2]
      rfl
    | none =>
      right; right
      refine ⟨order, (processPayment env (order.withID db.nextId)).paymentResp, rfl, ?_, ?_⟩
      · exact processPayment_ok_inv env (order.withID db.nextId) hPay
      · rw [(orderHandler_charge_ok env db order user hu ha hUser hIns hId hPay).2.2.2]
        rfl

theorem updatePaymentStatus_db_cases (env : Env) (db : DB) (orderID : Int) (status : String) :
    (updatePaymentStatus env db orderID status).db = db ∨
    (updatePaymentStatus env db orderID status).db = db.update status orderID := by
  cases h : env.execUpdate status orderID with
  | some e => left; simp [updatePaymentStatus, h]
  | none => right; simp [updatePaymentStatus, h]

/-- The store after a run of the handler: untouched, or with the one new row, or with the one
new row and its status overwritten by the one value written. -/
theorem orderHandler_db (env : Env) (db : DB) (r : Request) :
    (orderHandler env db r).db = db ∨
    ∃ order, r.Body = .ok order ∧
      ((orderHandler env db r).db = db.insert order.UserID order.Amount order.Description ∨
       ∃ status, statusWrites (orderHandler env db r).calls = [status] ∧
         (orderHandler env db r).db =
           (db.insert order.UserID order.Amount order.Description).update status db.nextId) := by
  obtain ⟨method, body⟩ := r
  by_cases hm : method = "POST"
  swap
  · left; simp [orderHandler, hm]
  subst hm
  cases body with
  | malformed e => left; simp [orderHandler]
  | ok order =>
    by_cases hv : order.UserID ≤ 0 ∨ order.Amount ≤ 0
    · left; simp [orderHandler, hv]
    have hu : 0 < order.UserID := by omega
    have ha : 0 < order.Amount := by omega
    by_cases hUser : ∃ user, env.httpGet (userURL order.UserID) = .response 200 (.ok user)
    swap
    · left
      exact (orderHandler_user_failed env db order hu ha (fun user hx => hUser ⟨user, hx⟩)).2.1
    obtain ⟨user, hUser⟩ := hUser
    by_cases hins : env.execInsert order.UserID order.Amount order.Description ≠ none ∨
        env.lastInsertId ≠ none
    · rcases (orderHandler_insert_failed env db order user hu ha hUser hins).2.2 with h | h
      · exact Or.inl h
      · exact Or.inr ⟨order, rfl, Or.inl h⟩
    have hIns : env.execInsert order.UserID order.Amount order.Description = none := by
      by_contra hx; exact hins (Or.inl hx)
    have hId : env.lastInsertId = none := by
      by_contra hx; exact hins (Or.inr hx)
    right
    refine ⟨order, rfl, ?_⟩
    cases hPay : (processPayment env (order.withID db.nextId)).err with
    | some err =>
      obtain ⟨_, _, hdb, hcalls⟩ :=
        orderHandler_charge_failed env db order user err hu ha hUser hIns hId hPay
      rw [hdb, hcalls]
      rcases updatePaymentStatus_db_cases env
        (db.insert order.UserID order.Amount order.Description) db.nextId "failed" with h | h
      · exact Or.inl h
      · exact Or.inr ⟨"failed", rfl, h⟩
    | none =>
      obtain ⟨_, _, hdb, hcalls⟩ :=
        orderHandler_charge_ok env db order user hu ha hUser hIns hId hPay
      rw [hdb, hcalls]
      rcases updatePaymentStatus_db_cases env
        (db.insert order.UserID order.Amount order.Description) db.nextId
        (processPayment env (order.withID db.nextId)).paymentResp.Status with h | h
      · exact Or.inl h
      · exact Or.inr ⟨_, rfl, h⟩

end OrderService

/-! ## The claims about `orderHandler` -/

namespace OrderService

/-- C1. A POST request whose decoded user id is not positive, or whose amount is not
positive, is answered with status 400 and the invalid-input error text, and nothing else
happens: the handler makes no call at all (no user lookup, no insert, no payment call, no
status update, no notification), writes no log line and leaves the store as it was. -/
theorem invalid_input_rejected_without_effects (env : Env) (db : DB) (order : Order)
    (h : order.UserID ≤ 0 ∨ order.Amount ≤ 0) :
    (orderHandler env db ⟨"POST", .ok order⟩).StatusCode = 400 ∧
    (orderHandler env db ⟨"POST", .ok order⟩).body =
      .error "\x7b\"error\": \"Invalid user_id or amount\"\x7d" ∧
    (orderHandler env db ⟨"POST", .ok order⟩).db = db ∧
    (orderHandler env db ⟨"POST", .ok order⟩).calls = [] ∧
    (orderHandler env db ⟨"POST", .ok order⟩).logs = [] := by
  simp [orderHandler, h]

/-- Witness of C1: an order of amount 0 for user 1. -/
theorem invalid_input_witness :
    ((⟨0, 1, 0, "book", ""⟩ : Order).UserID ≤ 0 ∨ (⟨0, 1, 0, "book", ""⟩ : Order).Amount ≤ 0) ∧
    (orderHandler (Scenario.env fun _ => .transportError "down") Scenario.emptyDB
      ⟨"POST", .ok ⟨0, 1, 0, "book", ""⟩⟩).StatusCode = 400 ∧
    (orderHandler (Scenario.env fun _ => .transportError "down") Scenario.emptyDB
      ⟨"POST", .ok ⟨0, 1, 0, "book", ""⟩⟩).calls = [] :=
  have h := invalid_input_rejected_without_effects
    (Scenario.env fun _ => .transportError "down") Scenario.emptyDB ⟨0, 1, 0, "book", ""⟩
    (by decide)
  ⟨by decide, h.1, h.2.2.2.1⟩

/-- C2. For a valid order request (user id and amount positive) whose user lookup fails, that
is, whenever the user service's reply is anything but a 200 response with a decodable body
(a transport error or timeout, a status such as 404, an undecodable body), the handler
answers 400, the order store is unchanged, and the only call made is the user lookup: no
insert, no payment call, no notification. -/
theorem failed_user_lookup_creates_no_order (env : Env) (db : DB) (order : Order)
    (hu : 0 < order.UserID) (ha : 0 < order.Amount)
    (hfail : ∀ user, env.httpGet (userURL order.UserID) ≠ .response 200 (.ok user)) :
    (orderHandler env db ⟨"POST", .ok order⟩).StatusCode = 400 ∧
    (orderHandler env db ⟨"POST", .ok order⟩).db = db ∧
    (orderHandler env db ⟨"POST", .ok order⟩).calls = [.httpGet (userURL order.UserID)] ∧
    charges (orderHandler env db ⟨"POST", .ok order⟩).calls = [] ∧
    notifications (orderHandler env db ⟨"POST", .ok order⟩).calls = [] := by
  obtain ⟨h1, h2, h3⟩ := orderHandler_user_failed env db order hu ha hfail
  refine ⟨h1, h2, h3, ?_, ?_⟩ <;> (rw [h3]; rfl)

/-- Witness of C2: the spec's scenario of user 999, whom the user service does not know. -/
theorem failed_user_lookup_witness :
    (0 < (⟨0, 999, 5000, "book", ""⟩ : Order).UserID) ∧
    (orderHandler (Scenario.env fun _ => .transportError "down") Scenario.emptyDB
      ⟨"POST", .ok ⟨0, 999, 5000, "book", ""⟩⟩).StatusCode = 400 ∧
    (orderHandler (Scenario.env fun _ => .transportError "down") Scenario.emptyDB
      ⟨"POST", .ok ⟨0, 999, 5000, "book", ""⟩⟩).db = Scenario.emptyDB :=
  have h := failed_user_lookup_creates_no_order
    (Scenario.env fun _ => .transportError "down") Scenario.emptyDB ⟨0, 999, 5000, "book", ""⟩
    (by decide) (by decide)
    (by
      intro user hx
      have e : (Scenario.env fun _ => .transportError "down").httpGet (userURL 999) =
          .response 404 (.ok ⟨0, "", ""⟩) := by decide
      rw [e] at hx
      simp at hx)
  ⟨by decide, h.1, h.2.1⟩

/-- C7. For a valid order request with a resolved user, if the insert fails (the `INSERT`
errors, or `LastInsertId` errors), the handler answers 500 and makes no payment call, no
status update and no notification. -/
theorem failed_insert_stops_workflow (env : Env) (db : DB) (order : Order) (user : User)
    (hu : 0 < order.UserID) (ha : 0 < order.Amount)
    (hUser : env.httpGet (userURL order.UserID) = .response 200 (.ok user))
    (hfail : env.execInsert order.UserID order.Amount order.Description ≠ none ∨
      env.lastInsertId ≠ none) :
    (orderHandler env db ⟨"POST", .ok order⟩).StatusCode = 500 ∧
    charges (orderHandler env db ⟨"POST", .ok order⟩).calls = [] ∧
    statusWrites (orderHandler env db ⟨"POST", .ok order⟩).calls = [] ∧
    notifications (orderHandler env db ⟨"POST", .ok order⟩).calls = [] := by
  obtain ⟨h1, h2, _⟩ := orderHandler_insert_failed env db order user hu ha hUser hfail
  refine ⟨h1, ?_, ?_, ?_⟩ <;> rcases h2 with h | h <;> (rw [h]; rfl)

/-- Witness of C7: the store refuses the insert of the book order. -/
theorem failed_insert_witness :
    ((Scenario.brokenStore.execInsert 1 5000 "book" ≠ none) ∨
      Scenario.brokenStore.lastInsertId ≠ none) ∧
    (orderHandler Scenario.brokenStore Scenario.emptyDB Scenario.bookRequest).StatusCode = 500 ∧
    charges (orderHandler Scenario.brokenStore Scenario.emptyDB Scenario.bookRequest).calls
      = [] :=
  have h := failed_insert_stops_workflow Scenario.brokenStore Scenario.emptyDB
    Scenario.bookOrder Scenario.user1 (by decide) (by decide) (by decide) (Or.inl (by decide))
  ⟨Or.inl (by decide), h.1, h.2.1⟩

/-- C3. For a valid order request with a resolved user and a successful insert, if
`processPayment` returns an error `err`, then: the response has status 200, carries no payment
section and carries `paymentError = err`; the order in the response has the id the store
assigned at insert, which is not zero; the one status write issued is `failed` for that id
(so that the stored status is `failed` whenever the `UPDATE` statement itself succeeds); the
notifier is not called. The text `err` is not empty, the one proviso being that the JSON
decoder, should it be the one to fail, reports its error with a non-empty text (as every
error of Go's encoding/json does). -/
theorem failed_charge_marks_order_failed (env : Env) (db : DB) (order : Order) (user : User)
    (err : String) (hu : 0 < order.UserID) (ha : 0 < order.Amount)
    (hUser : env.httpGet (userURL order.UserID) = .response 200 (.ok user))
    (hIns : env.execInsert order.UserID order.Amount order.Description = none)
    (hId : env.lastInsertId = none)
    (hPay : (processPayment env (order.withID db.nextId)).err = some err) :
    (orderHandler env db ⟨"POST", .ok order⟩).StatusCode = 200 ∧
    (orderHandler env db ⟨"POST", .ok order⟩).body =
      .result (order.withID db.nextId) none (some err) ∧
    (order.withID db.nextId).ID = db.nextId ∧ db.nextId ≠ 0 ∧
    (db.insert order.UserID order.Amount order.Description).statusOf db.nextId =
      some "pending" ∧
    (orderHandler env db ⟨"POST", .ok order⟩).calls =
      [.httpGet (userURL order.UserID),
       .dbInsert order.UserID order.Amount order.Description,
       .dbLastInsertId,
       .httpPostPayment ⟨db.nextId, order.Amount, order.Description⟩,
       .dbUpdate "failed" db.nextId] ∧
    statusWrites (orderHandler env db ⟨"POST", .ok order⟩).calls = ["failed"] ∧
    notifications (orderHandler env db ⟨"POST", .ok order⟩).calls = [] ∧
    (env.execUpdate "failed" db.nextId = none →
      (orderHandler env db ⟨"POST", .ok order⟩).db.statusOf db.nextId = some "failed") ∧
    ((∀ code, env.httpPostPayment ⟨db.nextId, order.Amount, order.Description⟩ ≠
        .response code (.malformed "")) → err ≠ "") := by
  obtain ⟨h1, h2, h3, h4⟩ :=
    orderHandler_charge_failed env db order user err hu ha hUser hIns hId hPay
  refine ⟨h1, h2, rfl, ne_of_gt (nextId_pos db), statusOf_insert db _ _ _, h4, ?_, ?_, ?_, ?_⟩
  · rw [h4]; rfl
  · rw [h4]; rfl
  · intro hUpd
    rw [h3, updatePaymentStatus_db env _ _ _ hUpd]
    exact statusOf_update_insert db _ _ _ _
  · intro hdec
    exact processPayment_err_nonempty env (order.withID db.nextId) err hPay hdec

/-- Witness of C3: the book order, the gateway answering 402 with a `failed` outcome. -/
theorem failed_charge_witness :
    (processPayment Scenario.chargeRefused (Scenario.bookOrder.withID Scenario.emptyDB.nextId)).err
      = some "payment failed: card_declined" ∧
    (orderHandler Scenario.chargeRefused Scenario.emptyDB Scenario.bookRequest).body =
      .result ⟨1, 1, 5000, "book", ""⟩ none (some "payment failed: card_declined") ∧
    (orderHandler Scenario.chargeRefused Scenario.emptyDB Scenario.bookRequest).db.statusOf 1 =
      some "failed" :=
  have h := failed_charge_marks_order_failed Scenario.chargeRefused Scenario.emptyDB
    Scenario.bookOrder Scenario.user1 "payment failed: card_declined"
    (by decide) (by decide) (by decide) (by decide) (by decide) (by decide)
  ⟨by decide, h.2.1, h.2.2.2.2.2.2.2.2.1 (by decide)⟩

/-- C4. For a valid order request with a resolved user and a successful insert, if
`processPayment` returns an outcome and no error, then the one status write issued carries
the outcome's status for the store-assigned id (so that the stored status equals the
outcome's status whenever the `UPDATE` statement itself succeeds), and exactly one
notification is dispatched, whose payload carries the store-assigned order id, that same
status, the request's amount and the resolved user's email. -/
theorem successful_charge_writes_status_and_notifies (env : Env) (db : DB) (order : Order)
    (user : User) (hu : 0 < order.UserID) (ha : 0 < order.Amount)
    (hUser : env.httpGet (userURL order.UserID) = .response 200 (.ok user))
    (hIns : env.execInsert order.UserID order.Amount order.Description = none)
    (hId : env.lastInsertId = none)
    (hPay : (processPayment env (order.withID db.nextId)).err = none) :
    (orderHandler env db ⟨"POST", .ok order⟩).calls =
      [.httpGet (userURL order.UserID),
       .dbInsert order.UserID order.Amount order.Description,
       .dbLastInsertId,
       .httpPostPayment ⟨db.nextId, order.Amount, order.Description⟩,
       .dbUpdate (processPayment env (order.withID db.nextId)).paymentResp.Status db.nextId,
       .httpPostNotification
         ⟨db.nextId, (processPayment env (order.withID db.nextId)).paymentResp.Status,
           order.Amount, user.Email⟩] ∧
    statusWrites (orderHandler env db ⟨"POST", .ok order⟩).calls =
      [(processPayment env (order.withID db.nextId)).paymentResp.Status] ∧
    (env.execUpdate (processPayment env (order.withID db.nextId)).paymentResp.Status db.nextId
        = none →
      (orderHandler env db ⟨"POST", .ok order⟩).db.statusOf db.nextId =
        some (processPayment env (order.withID db.nextId)).paymentResp.Status) ∧
    notifications (orderHandler env db ⟨"POST", .ok order⟩).calls =
      [⟨db.nextId, (processPayment env (order.withID db.nextId)).paymentResp.Status,
         order.Amount, user.Email⟩] := by
  obtain ⟨_, _, h3, h4⟩ := orderHandler_charge_ok env db order user hu ha hUser hIns hId hPay
  refine ⟨h4, ?_, ?_, ?_⟩
  · rw [h4]; rfl
  · intro hUpd
    rw [h3, updatePaymentStatus_db env _ _ _ hUpd]
    exact statusOf_update_insert db _ _ _ _
  · rw [h4]; rfl

/-- Witness of C4: the book order, the gateway accepting the charge. -/
theorem successful_charge_witness :
    (processPayment Scenario.chargeAccepted
      (Scenario.bookOrder.withID Scenario.emptyDB.nextId)).err = none ∧
    statusWrites (orderHandler Scenario.chargeAccepted Scenario.emptyDB
      Scenario.bookRequest).calls =
      [(processPayment Scenario.chargeAccepted
        (Scenario.bookOrder.withID Scenario.emptyDB.nextId)).paymentResp.Status] ∧
    notifications (orderHandler Scenario.chargeAccepted Scenario.emptyDB
      Scenario.bookRequest).calls =
      [⟨Scenario.emptyDB.nextId,
        (processPayment Scenario.chargeAccepted
          (Scenario.bookOrder.withID Scenario.emptyDB.nextId)).paymentResp.Status,
        5000, "alice@example.com"⟩] :=
  have h := successful_charge_writes_status_and_notifies Scenario.chargeAccepted
    Scenario.emptyDB Scenario.bookOrder Scenario.user1
    (by decide) (by decide) (by decide) (by decide) (by decide) (by decide)
  ⟨by decide, h.2.1, h.2.2.2⟩

/-- C5, counterexample. In the spec's own scenario (the book order, sent without a
`payment_status`, the gateway accepting the charge with status `success`) the charge succeeds
and `success` is the status written to the store, yet the order object of the response
carries the empty `payment_status` of the request, not `success`. -/
theorem response_order_status_not_final :
    (processPayment Scenario.chargeAccepted (Scenario.bookOrder.withID 1)).err = none ∧
    (processPayment Scenario.chargeAccepted (Scenario.bookOrder.withID 1)).paymentResp.Status
      = "success" ∧
    statusWrites (orderHandler Scenario.chargeAccepted Scenario.emptyDB
      Scenario.bookRequest).calls = ["success"] ∧
    (orderHandler Scenario.chargeAccepted Scenario.emptyDB Scenario.bookRequest).body =
      .result ⟨1, 1, 5000, "book", ""⟩ (some ⟨1, 5000, "success", "tx_1", ""⟩) none ∧
    ((orderHandler Scenario.chargeAccepted Scenario.emptyDB
      Scenario.bookRequest).body.order?.map fun o => o.PaymentStatus) ≠ some "success" := by
  decide

/-- C5, amended. For every request that gets past the insert step, the order object of the
response carries the `payment_status` of the request body unchanged (empty when the client
sent none), whatever the charge does. The final status travels elsewhere: when the charge
succeeds the response's payment section is the outcome (whose status is the one written to
the store) and there is no `paymentError`; when the charge fails there is no payment section,
`paymentError` is the error and the status written is `failed`. -/
theorem response_order_keeps_request_status (env : Env) (db : DB) (order : Order) (user : User)
    (hu : 0 < order.UserID) (ha : 0 < order.Amount)
    (hUser : env.httpGet (userURL order.UserID) = .response 200 (.ok user))
    (hIns : env.execInsert order.UserID order.Amount order.Description = none)
    (hId : env.lastInsertId = none) :
    ((orderHandler env db ⟨"POST", .ok order⟩).body.order?.map fun o => o.PaymentStatus) =
      some order.PaymentStatus ∧
    ((processPayment env (order.withID db.nextId)).err = none →
      (orderHandler env db ⟨"POST", .ok order⟩).body.payment? =
        some (processPayment env (order.withID db.nextId)).paymentResp ∧
      (orderHandler env db ⟨"POST", .ok order⟩).body.paymentError? = none ∧
      statusWrites (orderHandler env db ⟨"POST", .ok order⟩).calls =
        [(processPayment env (order.withID db.nextId)).paymentResp.Status]) ∧
    (∀ err, (processPayment env (order.withID db.nextId)).err = some err →
      (orderHandler env db ⟨"POST", .ok order⟩).body.payment? = none ∧
      (orderHandler env db ⟨"POST", .ok order⟩).body.paymentError? = some err ∧
      statusWrites (orderHandler env db ⟨"POST", .ok order⟩).calls = ["failed"]) := by
  refine ⟨?_, ?_, ?_⟩
  · cases hPay : (processPayment env (order.withID db.nextId)).err with
    | some err =>
      rw [(orderHandler_charge_failed env db order user err hu ha hUser hIns hId hPay).2.1]
      rfl
    | none =>
      rw [(orderHandler_charge_ok env db order user hu ha hUser hIns hId hPay).2.1]
      rfl
  · intro hPay
    obtain ⟨_, h2, _, h4⟩ := orderHandler_charge_ok env db order user hu ha hUser hIns hId hPay
    rw [h2, h4]
    exact ⟨rfl, rfl, rfl⟩
  · intro err hPay
    obtain ⟨_, h2, _, h4⟩ :=
      orderHandler_charge_failed env db order user err hu ha hUser hIns hId hPay
    rw [h2, h4]
    exact ⟨rfl, rfl, rfl⟩

/-- Witness of C5 as amended: a client sends the book order with `payment_status` set to
`success` and the gateway refuses the charge; the response's order still says `success`. -/
theorem response_order_keeps_request_status_witness :
    Scenario.chargeRefused.httpGet (userURL 1) = .response 200 (.ok Scenario.user1) ∧
    ((orderHandler Scenario.chargeRefused Scenario.emptyDB
      ⟨"POST", .ok ⟨0, 1, 5000, "book", "success"⟩⟩).body.order?.map fun o => o.PaymentStatus) =
      some "success" :=
  have h := response_order_keeps_request_status Scenario.chargeRefused Scenario.emptyDB
    ⟨0, 1, 5000, "book", "success"⟩ Scenario.user1
    (by decide) (by decide) (by decide) (by decide) (by decide)
  ⟨by decide, h.1⟩

/-- C8, counterexample. The gateway answers the charge of the book order with HTTP status 402
and a body that decodes to a well-formed outcome of status `failed`: `processPayment` returns
an error, although the transport worked and the body decoded. -/
theorem processPayment_errors_on_decoded_reply :
    Scenario.chargeRefused.httpPostPayment ⟨1, 5000, "book"⟩ =
      .response 402 (.ok ⟨1, 5000, "failed", "", "card_declined"⟩) ∧
    processPayment Scenario.chargeRefused (Scenario.bookOrder.withID 1) =
      ⟨⟨1, 5000, "failed", "", "card_declined"⟩, some "payment failed: card_declined",
        [.httpPostPayment ⟨1, 5000, "book"⟩]⟩ := by
  decide

/-- C8, amended. `processPayment` returns no error exactly when the gateway's reply has HTTP
status 200 and a body that decodes, and then it returns the decoded outcome, whatever its
status field says (`failed` included). It returns an error when the transport fails, when
the body cannot be decoded, and also when a reply with a decodable body has a status other
than 200: the error is then `payment failed: ` followed by the reply's error message. -/
theorem processPayment_error_iff (env : Env) (order : Order) :
    (∀ p, env.httpPostPayment ⟨order.ID, order.Amount, order.Description⟩ =
        .response 200 (.ok p) →
      (processPayment env order).err = none ∧ (processPayment env order).paymentResp = p) ∧
    (∀ code p, env.httpPostPayment ⟨order.ID, order.Amount, order.Description⟩ =
        .response code (.ok p) → code ≠ 200 →
      (processPayment env order).err = some ("payment failed: " ++ p.ErrorMessage) ∧
      (processPayment env order).paymentResp = p) ∧
    (∀ cause, env.httpPostPayment ⟨order.ID, order.Amount, order.Description⟩ =
        .transportError cause →
      (processPayment env order).err = some (urlErrorText "Post" paymentURL cause)) ∧
    (∀ code e, env.httpPostPayment ⟨order.ID, order.Amount, order.Description⟩ =
        .response code (.malformed e) →
      (processPayment env order).err = some e) ∧
    ((processPayment env order).err = none ↔
      ∃ p, env.httpPostPayment ⟨order.ID, order.Amount, order.Description⟩ =
        .response 200 (.ok p)) := by
  refine ⟨?_, ?_, ?_, ?_, ?_⟩
  · intro p h
    exact processPayment_of_ok env order p h
  · intro code p h hc
    exact processPayment_of_status env order p code h hc
  · intro cause h
    simp [processPayment, h]
  · intro code e h
    simp [processPayment, h]
  · constructor
    · intro h
      exact ⟨_, processPayment_ok_inv env order h⟩
    · rintro ⟨p, h⟩
      exact (processPayment_of_ok env order p h).1

end OrderService

/-! ## The order service in front of the repository's payment service -/

namespace Deployment

/-- Whatever the processor returns, error or not, `paymentHandler` answers a charge of positive
amount with status 200 and the processor's `PaymentResponse` as body. -/
theorem paymentServiceReply_of_pos (processor : PaymentService.PaymentProcessor)
    (payload : OrderService.PaymentPayload) (h : 0 < payload.Amount) :
    paymentServiceReply processor payload =
      .response 200 (decodePaymentBody
        (.json (processor ⟨payload.OrderID, payload.Amount, payload.Description⟩).1)) := by
  have hv : ¬ payload.Amount ≤ 0 := by omega
  cases hp : (processor ⟨payload.OrderID, payload.Amount, payload.Description⟩).2 <;>
    simp [paymentServiceReply, PaymentService.paymentHandler, hv, hp]

/-- A 200 reply of the payment service run with the Stripe processor carries the status
`success` or `failed`. -/
theorem stripe_reply_status (paymentintentNew : PaymentService.PaymentIntentParams →
      Except String String)
    (payload : OrderService.PaymentPayload) (p : OrderService.PaymentResponse)
    (h : paymentServiceReply (PaymentService.StripeProcessor.ProcessPayment paymentintentNew)
      payload = .response 200 (.ok p)) :
    p.Status = "success" ∨ p.Status = "failed" := by
  by_cases hv : payload.Amount ≤ 0
  · simp [paymentServiceReply, PaymentService.paymentHandler, hv] at h
  · rw [paymentServiceReply_of_pos _ _ (by omega)] at h
    cases hs : paymentintentNew ⟨payload.Amount, "usd", payload.Description, ["card"]⟩ with
    | error e =>
      simp [PaymentService.StripeProcessor.ProcessPayment, hs, decodePaymentBody] at h
      right; rw [← h]
    | ok piID =>
      simp [PaymentService.StripeProcessor.ProcessPayment, hs, decodePaymentBody] at h
      left; rw [← h]

/-- With the payment service of this repository as gateway, an error of the processor never
reaches the order service as an error of `processPayment`: for a positive amount the adapter
returns the processor's response and no error. -/
theorem processor_error_not_seen (env : OrderService.Env)
    (processor : PaymentService.PaymentProcessor) (order : OrderService.Order)
    (h : 0 < order.Amount) :
    (OrderService.processPayment (withPaymentService env processor) order).err = none := by
  have hr := paymentServiceReply_of_pos processor ⟨order.ID, order.Amount, order.Description⟩ h
  exact (OrderService.processPayment_of_ok (withPaymentService env processor) order _ hr).1

/-- C6, the code at the failing input. The book order is placed, the payment gateway being the
payment service of this repository, and Stripe declines with the error `card_declined`, so
that `ProcessPayment` returns an error. `paymentHandler` only logs that error and answers
with status 200; the order service therefore takes the branch of a successful charge: the
response has a payment section (status `failed`, error message `card_declined`) and no
`paymentError`, and the notifier is called with status `failed`. Only the stored status,
`failed`, is what the claim says. -/
theorem declined_charge_takes_success_branch :
    (PaymentService.StripeProcessor.ProcessPayment (fun _ => .error "card_declined")
      ⟨1, 5000, "book"⟩).2 = some "card_declined" ∧
    PaymentService.paymentHandler
      (PaymentService.StripeProcessor.ProcessPayment fun _ => .error "card_declined")
      "POST" (.ok ⟨1, 5000, "book"⟩) =
      ⟨200, .json ⟨1, 5000, "failed", "", "card_declined"⟩,
        ["Payment processing error for order 1: card_declined"]⟩ ∧
    (OrderService.orderHandler Scenario.stripeDeclines Scenario.emptyDB
      Scenario.bookRequest).StatusCode = 200 ∧
    (OrderService.orderHandler Scenario.stripeDeclines Scenario.emptyDB
      Scenario.bookRequest).body =
      .result ⟨1, 1, 5000, "book", ""⟩ (some ⟨1, 5000, "failed", "", "card_declined"⟩) none ∧
    (OrderService.orderHandler Scenario.stripeDeclines Scenario.emptyDB
      Scenario.bookRequest).body.paymentError? ≠ some "payment failed: card_declined" ∧
    OrderService.notifications (OrderService.orderHandler Scenario.stripeDeclines
      Scenario.emptyDB Scenario.bookRequest).calls =
      [⟨1, "failed", 5000, "alice@example.com"⟩] ∧
    (OrderService.orderHandler Scenario.stripeDeclines Scenario.emptyDB
      Scenario.bookRequest).db.statusOf 1 = some "failed" := by
  decide

end Deployment

namespace OrderService

/-- C9, counterexample. The gateway answers the charge of the book order with status 200 and
an outcome whose status is `pending`: the workflow writes `pending` to the stored order. -/
theorem gateway_status_written_unchecked :
    statusWrites (orderHandler Scenario.chargePending Scenario.emptyDB
      Scenario.bookRequest).calls = ["pending"] ∧
    (orderHandler Scenario.chargePending Scenario.emptyDB Scenario.bookRequest).db.statusOf 1 =
      some "pending" := by
  decide

/-- C9, amended. The row the handler inserts has status `pending`, whatever `payment_status`
the request body carried, and the store after the run is the old store, or the old store with
that row, or the old store with that row and its status overwritten by the one value written.
For every request and every reply of the payment gateway the workflow writes the status at
most once. The value written is `failed`, or else the status field of the gateway's 200
reply, copied as it is, without a check against the enum. When the gateway is the payment
service of this repository run with its Stripe processor, the value written is `success` or
`failed`. -/
theorem payment_status_writes (env : Env) (db : DB) (r : Request) :
    (∀ order, r.Body = .ok order →
      (db.insert order.UserID order.Amount order.Description).statusOf db.nextId =
        some "pending") ∧
    ((orderHandler env db r).db = db ∨
      ∃ order, r.Body = .ok order ∧
        ((orderHandler env db r).db = db.insert order.UserID order.Amount order.Description ∨
         ∃ status, statusWrites (orderHandler env db r).calls = [status] ∧
           (orderHandler env db r).db =
             (db.insert order.UserID order.Amount order.Description).update status
               db.nextId)) ∧
    (statusWrites (orderHandler env db r).calls).length ≤ 1 ∧
    (∀ status ∈ statusWrites (orderHandler env db r).calls,
      status = "failed" ∨
      ∃ order p, r.Body = .ok order ∧
        env.httpPostPayment ⟨db.nextId, order.Amount, order.Description⟩ =
          .response 200 (.ok p) ∧
        status = p.Status) ∧
    (∀ paymentintentNew,
      ∀ status ∈ statusWrites (orderHandler
        (Deployment.withPaymentService env
          (PaymentService.StripeProcessor.ProcessPayment paymentintentNew)) db r).calls,
      status = "success" ∨ status = "failed") := by
  refine ⟨fun order _ => statusOf_insert db _ _ _, orderHandler_db env db r, ?_, ?_, ?_⟩
  · rcases orderHandler_statusWrites env db r with h | h | ⟨_, _, _, _, h⟩ <;> simp [h]
  · intro status hs
    rcases orderHandler_statusWrites env db r with h | h | ⟨order, p, hb, hp, h⟩
    · simp [h] at hs
    · left; simpa [h] using hs
    · right
      exact ⟨order, p, hb, hp, by simpa [h] using hs⟩
  · intro paymentintentNew status hs
    rcases orderHandler_statusWrites (Deployment.withPaymentService env
        (PaymentService.StripeProcessor.ProcessPayment paymentintentNew)) db r with
      h | h | ⟨order, p, _, hp, h⟩
    · simp [h] at hs
    · right; simpa [h] using hs
    · have hst := Deployment.stripe_reply_status paymentintentNew _ p hp
      have hs2 : status = p.Status := by simpa [h] using hs
      rw [hs2]
      exact hst

end OrderService

namespace NotificationService

/-- C10. For every decodable POST request to the notification handler, an email is handed to
`smtp.SendMail` if and only if `paymentStatus` is exactly `success` (and then exactly one);
the response has status 200 and echoes the request's `orderId`; its `status` is
`email_failed` exactly when an email was attempted and sending it failed, and `sent` in every
other case, in particular for every request whose `paymentStatus` is not `success`, for which
no email is sent at all. -/
theorem email_iff_success (env : Env) (req : NotificationRequest) :
    ((notificationHandler env "POST" (.ok req)).mails ≠ [] ↔ req.PaymentStatus = "success") ∧
    (notificationHandler env "POST" (.ok req)).mails.length ≤ 1 ∧
    (notificationHandler env "POST" (.ok req)).StatusCode = 200 ∧
    (∃ status, (notificationHandler env "POST" (.ok req)).body = .json ⟨req.OrderID, status⟩ ∧
      (status = "email_failed" ↔
        ∃ mail, (notificationHandler env "POST" (.ok req)).mails = [mail] ∧
          env.sendMail mail ≠ none) ∧
      (status ≠ "email_failed" → status = "sent")) ∧
    (req.PaymentStatus ≠ "success" →
      (notificationHandler env "POST" (.ok req)).mails = [] ∧
      (notificationHandler env "POST" (.ok req)).body = .json ⟨req.OrderID, "sent"⟩) := by
  by_cases hs : req.PaymentStatus = "success"
  · cases hm : env.sendMail
        ⟨"mailhog:1025", "from@example.com", [req.UserEmail],
          "To: " ++ req.UserEmail ++ "\r\n" ++ "Subject: " ++
            ("Payment Confirmation for Order #" ++ toString req.OrderID) ++ "\r\n" ++ "\r\n" ++
            ("Dear User,\n\nYour payment of $" ++ env.formatFloat2 req.Amount ++
              " for Order #" ++ toString req.OrderID ++
              " has been successfully processed.\n\nThank you!") ++ "\r\n"⟩ with
    | none =>
      simp [notificationHandler, sendEmail, hs] at hm ⊢
      simp [hm]
    | some e =>
      simp [notificationHandler, sendEmail, hs] at hm ⊢
      simp [hm]
  · simp [notificationHandler, hs]

end NotificationService
